import Mathlib

set_option maxRecDepth 8000

/-!
Shallow embedding of the ESO addon manifest parser (`src/lib.rs` and
`src/error.rs`).  Strings are modelled as `List Char`; Rust panics
(`unwrap`) are modelled by `Option`, `none` standing for an aborted
computation.  Machine integers (`u32`) are modelled as `Nat` with the
parse function rejecting values of `2^32` or more, exactly as
`str::parse::<u32>` does.  Byte lengths coincide with character counts
on the ASCII inputs the claims are about.
-/

/-- Model of the error enum `ManifestError` from `src/error.rs`.  The
`std::io::Error` payload of `ReadLineError` is modelled as a message
string. -/
inductive ManifestError where
  | MissingDirective (s : List Char)
  | InvalidDirective (s : List Char)
  | UnknownDirective (s : List Char)
  | UnmappedDirective (s : List Char)
  | Encoding
  | LineLength (n : Nat)
  | CommentLength (n : Nat)
  | TitleLength (n : Nat)
  | ApiMinimumVersion (n : Nat)
  | ReadLineError (e : List Char)
  | Unknown
deriving DecidableEq

/-- Model of `DependsEntry`: a dependency title with an optional `u32`
version bound. -/
structure DependsEntry where
  title : List Char
  version : Option Nat
deriving DecidableEq

/-- Model of the `AddonManifest` struct, fields in source order.  The
defaults are those of `#[derive(Default)]`. -/
structure AddonManifest where
  title : List Char := []
  author : List Char := []
  api_version : Nat := 0
  api_version_2 : Option Nat := none
  addon_version : Option Nat := none
  version : Option (List Char) := none
  depends_on : List DependsEntry := []
  optional_depends_on : List DependsEntry := []
  is_library : Option Bool := none
  errors : List ManifestError := []
  warnings : List ManifestError := []
deriving DecidableEq

/-- The domain equality of `impl PartialEq for AddonManifest`: the nine
data fields are compared and `errors`/`warnings` are ignored. -/
def manifestEq (a b : AddonManifest) : Bool :=
  decide (a.title = b.title)
    && decide (a.author = b.author)
    && decide (a.api_version = b.api_version)
    && decide (a.api_version_2 = b.api_version_2)
    && decide (a.addon_version = b.addon_version)
    && decide (a.version = b.version)
    && decide (a.depends_on = b.depends_on)
    && decide (a.optional_depends_on = b.optional_depends_on)
    && decide (a.is_library = b.is_library)

/-- Model of the `LineType` enum; `Unknown` is declared in the source but
never produced by `from_line`. -/
inductive LineType where
  | Directive
  | Comment
  | Blank
  | Data
  | Unknown
deriving DecidableEq

/-- Whitespace test modelling `char::is_whitespace` on the ASCII
whitespace characters that can occur in manifest lines. -/
def isWS (c : Char) : Bool :=
  c = ' ' || c = '\t' || c = '\n' || c = '\r'

/-- Model of `LineType::from_line`: `"## "` prefix means a directive, a
leading `#` or `;` a comment, an all-whitespace line is blank, anything
else is data. -/
def lineTypeFromLine (line : List Char) : LineType :=
  if line.take 3 = ['#', '#', ' '] then LineType.Directive
  else if line.head? = some '#' || line.head? = some ';' then LineType.Comment
  else if line.all isWS then LineType.Blank
  else LineType.Data

/-- Model of `str::parse::<u32>`: an optional leading `+`, then at least
one decimal digit, value below `2^32`; anything else fails. -/
def parseU32 (s : List Char) : Option Nat :=
  let t := match s with
    | '+' :: rest => rest
    | _ => s
  if t = [] then none
  else if t.all Char.isDigit then
    let n := t.foldl (fun acc c => acc * 10 + (c.toNat - 48)) 0
    if n < 4294967296 then some n else none
  else none

/-- Model of `str::parse::<bool>`: exactly `true` or `false`. -/
def parseBool (s : List Char) : Option Bool :=
  if s = String.data "true" then some true
  else if s = String.data "false" then some false
  else none

/-- Whether the two-character separator `": "` occurs somewhere in the
list. -/
def hasSep : List Char → Bool
  | c1 :: c2 :: rest => (c1 = ':' && c2 = ' ') || hasSep (c2 :: rest)
  | _ => false

/-- Split at the last occurrence of the separator `": "`: the greedy
group `(?P<directive>.*)` of `RE_DIRECTIVE` takes the longest prefix
that still leaves a `": "` for the rest of the pattern, so the split
lands on the last occurrence (the regex crate's leftmost-first
semantics). -/
def splitLastSep : List Char → Option (List Char × List Char)
  | [] => none
  | c :: rest =>
    (splitLastSep rest).elim
      (if c = ':' && rest.head? = some ' ' then some ([], rest.tail) else none)
      (fun p => some (c :: p.1, p.2))

/-- Model of matching `RE_DIRECTIVE = ^## (?P<directive>.*): (?P<value>.*)`
against a line: the line must start with `"## "`, and the remainder is
split at its last `": "`. -/
def splitDirective (line : List Char) : Option (List Char × List Char) :=
  if line.take 3 = ['#', '#', ' '] then splitLastSep (line.drop 3) else none

/-- Model of `str::split(' ')`: empty fragments between consecutive
spaces are kept, and the empty string yields one empty fragment. -/
def splitSp : List Char → List (List Char)
  | [] => [[]]
  | ' ' :: rest => [] :: splitSp rest
  | c :: rest =>
    match splitSp rest with
    | t :: ts => (c :: t) :: ts
    | [] => [[c]]

/-- Comparator characters of the dependency grammar `[<=>]`. -/
def isComp (c : Char) : Bool :=
  c = '<' || c = '=' || c = '>'

/-- Split a list at its first comparator character: `some (pre, rest)`
with `rest` beginning at that character, or `none` when there is no
comparator. -/
def splitAtComp : List Char → Option (List Char × List Char)
  | [] => none
  | c :: rest =>
    if isComp c then some ([], c :: rest)
    else
      match splitAtComp rest with
      | some (pre, r) => some (c :: pre, r)
      | none => none

/-- Model of matching one token against
`RE_DEPENDS = ^(?P<name>.+?)(([<=>]+)(?P<version>.*))?$` and building a
`DependsEntry` as `parse_depends` does.  The lazy `.+?` makes `name` the
shortest nonempty prefix after which the rest of the pattern matches:
the prefix up to the first comparator at position 1 or later, or the
whole token when there is none.  The greedy `[<=>]+` then takes the
maximal comparator run and `version` is the remainder, whose
`parse::<u32>().unwrap()` panics on failure — modelled by the outer
`none`.  The inner `none` is a token the regex does not match at all
(only the empty token), which `parse_depends` skips silently. -/
def matchDepToken (tok : List Char) : Option (Option DependsEntry) :=
  match tok with
  | [] => some none
  | c :: rest =>
    match splitAtComp rest with
    | none => some (some { title := c :: rest, version := none })
    | some (pre, r) =>
      match parseU32 (r.dropWhile isComp) with
      | some ver => some (some { title := c :: pre, version := some ver })
      | none => none

/-- The token loop of `parse_depends`: tokens are processed left to
right; a panic aborts everything, an unmatched token is skipped, and an
entry is kept only when its title is nonempty. -/
def depTokensRun : List (List Char) → Option (List DependsEntry)
  | [] => some []
  | tok :: rest =>
    match matchDepToken tok with
    | none => none
    | some none => depTokensRun rest
    | some (some e) =>
      match depTokensRun rest with
      | none => none
      | some ds => some (if !e.title.isEmpty then e :: ds else ds)

/-- Model of `AddonManifestParser::parse_depends`: split the directive
value on single spaces and run every token through the dependency
grammar. -/
def parse_depends (line : List Char) : Option (List DependsEntry) :=
  depTokensRun (splitSp line)

/-- The directive dispatch of `parse_line` (the `match directive` block):
each recognized name updates its field, the numeric and boolean ones
through `parse().unwrap()` (a panic, modelled by `none`), and an
unrecognized name records an `UnmappedDirective` warning carrying the
value. -/
def dispatchDirective (directive value : List Char) (result : AddonManifest)
    (full_validate : Bool) : Option AddonManifest :=
  if directive = String.data "Title" then
    some { (if full_validate && decide (value.length > 64) then
        { result with errors := result.errors ++ [ManifestError.TitleLength value.length] }
      else result) with title := value }
  else if directive = String.data "Author" then
    some { result with author := value }
  else if directive = String.data "APIVersion" then
    if value.contains ' ' then
      match (splitSp value).mapM parseU32 with
      | some (v0 :: v1 :: _) =>
        some { result with api_version := v0, api_version_2 := some v1 }
      | _ => none
    else
      match parseU32 value with
      | some v => some { result with api_version := v }
      | none => none
  else if directive = String.data "AddOnVersion" then
    match parseU32 value with
    | some v => some { result with addon_version := some v }
    | none => none
  else if directive = String.data "Version" then
    some { result with version := some value }
  else if directive = String.data "DependsOn" then
    match parse_depends value with
    | some ds => some { result with depends_on := result.depends_on ++ ds }
    | none => none
  else if directive = String.data "OptionalDependsOn" then
    match parse_depends value with
    | some ds => some { result with optional_depends_on := result.optional_depends_on ++ ds }
    | none => none
  else if directive = String.data "IsLibrary" then
    match parseBool value with
    | some b => some { result with is_library := some b }
    | none => none
  else
    some { result with warnings := result.warnings ++ [ManifestError.UnmappedDirective value] }

/-- Model of `AddonManifestParser::parse_line`.  A directive line that the
regex does not match records `InvalidDirective`; on a match, a line over
301 characters records `LineLength` under full validation and dispatch
proceeds; over-long comments record `CommentLength` under full
validation; blank and data lines do nothing.  The dead `is_none` checks
on the two captures of the source are omitted: both groups are always
present on a match. -/
def parse_line (line : List Char) (result : AddonManifest)
    (full_validate : Bool) : Option AddonManifest :=
  match lineTypeFromLine line with
  | LineType.Directive =>
    match splitDirective line with
    | some (directive, value) =>
      let result :=
        if full_validate && decide (line.length > 301) then
          { result with errors := result.errors ++ [ManifestError.LineLength line.length] }
        else result
      dispatchDirective directive value result full_validate
    | none =>
      some { result with errors := result.errors ++ [ManifestError.InvalidDirective line] }
  | LineType.Comment =>
    if full_validate && decide (line.length > 1024) then
      some { result with errors := result.errors ++ [ManifestError.CommentLength line.length] }
    else some result
  | _ => some result

/-- Folding `parse_line` over a list of plain lines, panics propagating. -/
def processLines : List (List Char) → AddonManifest → Bool → Option AddonManifest
  | [], result, _ => some result
  | l :: rest, result, full_validate =>
    match parse_line l result full_validate with
    | some r => processLines rest r full_validate
    | none => none

/-- The line loop of `parse`: each item of the line source is either a
read line or a read error; `line.map_err(ManifestError::ReadLineError).unwrap()`
panics on a read error, modelled by `none`. -/
def readLines : List (Except (List Char) (List Char)) → AddonManifest → Bool →
    Option AddonManifest
  | [], result, _ => some result
  | Except.error _ :: _, _, _ => none
  | Except.ok l :: rest, result, full_validate =>
    match parse_line l result full_validate with
    | some r => readLines rest r full_validate
    | none => none

/-- The full-validation tail of `parse`: the three required-field and
minimum-version checks, run in order, each appending one error when its
check fails. -/
def fullValidationChecks (r : AddonManifest) : AddonManifest :=
  let r :=
    if r.title.all isWS then
      { r with errors := r.errors ++ [ManifestError.MissingDirective (String.data "Title")] }
    else r
  let r :=
    if r.author.all isWS then
      { r with errors := r.errors ++ [ManifestError.MissingDirective (String.data "Author")] }
    else r
  if r.api_version < 100003 then
    { r with errors := r.errors ++ [ManifestError.ApiMinimumVersion r.api_version] }
  else r

/-- Model of `AddonManifestParser::parse`.  The line source is the list
of `reader.lines()` results.  The Rust signature returns
`Result<AddonManifest>` but the `Err` branch is commented out, so the
function either panics (`none`) or returns the record (`some`). -/
def parse (lines : List (Except (List Char) (List Char)))
    (full_validate : Option Bool) : Option AddonManifest :=
  let fv := full_validate.getD false
  match readLines lines {} fv with
  | none => none
  | some r => some (if fv then fullValidationChecks r else r)

/-- A directive line `## <name>: <value>` assembled from a name and a
value. -/
def dirLine (name value : List Char) : List Char :=
  '#' :: '#' :: ' ' :: (name ++ ':' :: ' ' :: value)

/-! Helper lemmas about the directive split. -/

/-- A list without the separator has no last-separator split. -/
theorem splitLastSep_eq_none (xs : List Char) (h : hasSep xs = false) :
    splitLastSep xs = none := by
  induction xs with
  | nil => rfl
  | cons c rest ih =>
    cases rest with
    | nil => simp [splitLastSep]
    | cons c2 tail =>
      rw [hasSep] at h
      simp only [Bool.or_eq_false_iff] at h
      rw [splitLastSep, ih h.2]
      simpa using h.1

/-- When the suffix after an explicit separator has no further separator,
the last-separator split lands on the explicit one. -/
theorem splitLastSep_append (pre post : List Char) (h : hasSep post = false) :
    splitLastSep (pre ++ ':' :: ' ' :: post) = some (pre, post) := by
  induction pre with
  | nil =>
    have hs : splitLastSep (' ' :: post) = none := by
      apply splitLastSep_eq_none
      cases post with
      | nil => rfl
      | cons p tail => rw [hasSep]; simpa [hasSep] using h
    rw [List.nil_append, splitLastSep, hs]
    rfl
  | cons c pre ih =>
    rw [List.cons_append, splitLastSep, ih]
    rfl

/-- The directive regex on an assembled directive line splits exactly at
the explicit separator when the value holds no further separator. -/
theorem splitDirective_dirLine (n v : List Char) (h : hasSep v = false) :
    splitDirective (dirLine n v) = some (n, v) := by
  simp [splitDirective, dirLine, splitLastSep_append _ _ h]

/-- A matched directive line reduces `parse_line` to the dispatch on its
name and value, after the length check. -/
theorem parse_line_split (line d v : List Char) (r : AddonManifest) (fv : Bool)
    (h : splitDirective line = some (d, v)) :
    parse_line line r fv =
      dispatchDirective d v
        (if fv && decide (line.length > 301) then
          { r with errors := r.errors ++ [ManifestError.LineLength line.length] }
        else r) fv := by
  have ht : line.take 3 = ['#', '#', ' '] := by
    by_cases hc : line.take 3 = ['#', '#', ' ']
    · exact hc
    · simp [splitDirective, hc] at h
  simp [parse_line, lineTypeFromLine, ht, h]

/-- Effect of one `Title` directive line without full validation. -/
theorem parse_line_title (v : List Char) (r : AddonManifest) (h : hasSep v = false) :
    parse_line (dirLine (String.data "Title") v) r false = some { r with title := v } := by
  rw [parse_line_split _ _ _ _ _ (splitDirective_dirLine _ _ h)]
  simp [dispatchDirective]

/-- Effect of one `DependsOn` directive line without full validation. -/
theorem parse_line_depends (v : List Char) (r : AddonManifest) (ds : List DependsEntry)
    (h : hasSep v = false) (hd : parse_depends v = some ds) :
    parse_line (dirLine (String.data "DependsOn") v) r false =
      some { r with depends_on := r.depends_on ++ ds } := by
  rw [parse_line_split _ _ _ _ _ (splitDirective_dirLine _ _ h)]
  rw [dispatchDirective]
  rw [if_neg (by decide), if_neg (by decide), if_neg (by decide), if_neg (by decide),
    if_neg (by decide), if_pos rfl, hd]
  rfl

/-! The claims. -/

/-- C1: the claim says a malformed numeric or boolean directive value
(APIVersion, AddOnVersion, IsLibrary, or a dependency version) never
aborts the parse and surfaces as an accumulated field-level error.  The
code instead calls `parse().unwrap()` on each of these values, so the
whole parse panics: this theorem evaluates the model at the four failing
inputs and shows the parse aborts (`none`) rather than returning any
record. -/
theorem c1_numeric_parse_failures_abort :
    parse [Except.ok (String.data "## APIVersion: abc")] none = none ∧
    parse [Except.ok (String.data "## AddOnVersion: 1.2")] none = none ∧
    parse [Except.ok (String.data "## IsLibrary: yes")] none = none ∧
    parse [Except.ok (String.data "## DependsOn: Lib>=x")] none = none := by
  decide

/-- C2: the claim says a line-source read failure is returned to the
caller as a recoverable top-level error (ReadLineError).  The code maps
the error into `ManifestError::ReadLineError` and then `.unwrap()`s it,
so the process panics and `parse` never returns at all: for every line
source whose first read fails, the model aborts (`none`) instead of
producing an error value. -/
theorem c2_read_failure_aborts :
    ∀ (e : List Char) (rest : List (Except (List Char) (List Char)))
      (fv : Option Bool), parse (Except.error e :: rest) fv = none := by
  intro e rest fv
  rfl

/-- C3 counterexample: on `## Title: A: B` the greedy directive regex
splits at the last `": "`, so the directive name is `Title: A` (an
unmapped name), the title field stays empty — not `A: B` as the claim
states — and the value `B` lands in the warnings. -/
theorem c3_first_separator_refuted :
    Option.map AddonManifest.title (parse_line (String.data "## Title: A: B") {} false) =
      some [] ∧
    String.data "A: B" ≠ [] ∧
    parse_line (String.data "## Title: A: B") {} false =
      some { warnings := [ManifestError.UnmappedDirective (String.data "B")] } := by
  decide

/-- C3 amended: the directive name is the longest run of characters
before the last `": "` separator and the value is everything after that
last separator; in particular `## Title: A: B` carries the name
`Title: A`, which is unrecognized, so the line records one unmapped
warning holding `B` and leaves the title unchanged. -/
theorem c3_directive_split_is_last :
    ∀ (pre post : List Char), hasSep post = false →
      splitDirective (dirLine pre post) = some (pre, post) ∧
      parse_line (String.data "## Title: A: B") {} false =
        some { warnings := [ManifestError.UnmappedDirective (String.data "B")] } := by
  intro pre post h
  exact ⟨splitDirective_dirLine _ _ h, by decide⟩

/-- C3 witness: the amended split applied at `## Title: A: B` itself,
whose name part is `Title: A` and value part is `B`. -/
theorem c3_directive_split_is_last_w :
    splitDirective (dirLine (String.data "Title: A") (String.data "B")) =
      some (String.data "Title: A", String.data "B") ∧
    parse_line (String.data "## Title: A: B") {} false =
      some { warnings := [ManifestError.UnmappedDirective (String.data "B")] } :=
  c3_directive_split_is_last (String.data "Title: A") (String.data "B") (by decide)

/-- C4: the claim says the UnmappedDirective warning payload is the
directive's name.  The code pushes `value.to_string()`, so on
`## Credits: SomeName` the recorded warning holds the value `SomeName`,
not the name `Credits`; errors stay empty and every known field keeps
its default. -/
theorem c4_unmapped_warning_holds_value :
    parse_line (String.data "## Credits: SomeName") {} false =
      some { warnings := [ManifestError.UnmappedDirective (String.data "SomeName")] } ∧
    String.data "SomeName" ≠ String.data "Credits" := by
  decide

/-- C5: full validation over an empty line sequence yields exactly the
three errors MissingDirective("Title"), MissingDirective("Author"),
ApiMinimumVersion(0), in that order, and no warnings. -/
theorem c5_empty_input_full_validation :
    parse [] (some true) =
      some { errors := [ManifestError.MissingDirective (String.data "Title"),
                        ManifestError.MissingDirective (String.data "Author"),
                        ManifestError.ApiMinimumVersion 0] } := by
  decide

/-- C7: the three dependency-token examples: a bare name has no version,
`>=20` attaches version 20, and a mixed three-token value yields three
entries in input order with versions 10, none and 5. -/
theorem c7_dependency_token_examples :
    parse_depends (String.data "LibLibrary") =
      some [⟨String.data "LibLibrary", none⟩] ∧
    parse_depends (String.data "LibLibrary>=20") =
      some [⟨String.data "LibLibrary", some 20⟩] ∧
    parse_depends (String.data "LibLibrary>=10 CustomAddon LibOther<=5") =
      some [⟨String.data "LibLibrary", some 10⟩, ⟨String.data "CustomAddon", none⟩,
            ⟨String.data "LibOther", some 5⟩] := by
  decide

/-- Every dependency list the token loop returns holds only entries with
nonempty titles: the push is guarded by the `is_empty` check. -/
theorem depTokensRun_titles : ∀ (toks : List (List Char)) (ds : List DependsEntry),
    depTokensRun toks = some ds → ds.all (fun e => !e.title.isEmpty) = true := by
  intro toks
  induction toks with
  | nil =>
    intro ds h
    simp only [depTokensRun, Option.some.injEq] at h
    subst h
    rfl
  | cons tok rest ih =>
    intro ds h
    rw [depTokensRun] at h
    cases hm : matchDepToken tok with
    | none =>
      simp only [hm] at h
      exact Option.noConfusion h
    | some m =>
      cases m with
      | none =>
        simp only [hm] at h
        exact ih ds h
      | some e =>
        simp only [hm] at h
        cases hr : depTokensRun rest with
        | none =>
          simp only [hr] at h
          exact Option.noConfusion h
        | some ds0 =>
          simp only [hr, Option.some.injEq] at h
          subst h
          cases hne : e.title.isEmpty with
          | false => simpa [List.all_cons, hne] using ih ds0 hr
          | true => simpa [hne] using ih ds0 hr

/-- C8 amended: every DependencyEntry the dependency list parser returns
has a nonempty title (possibly all whitespace — the source checks
`is_empty`, not trimmed emptiness), and a token that fails to match the
token grammar (an empty token, such as the one a leading space
produces) contributes no entry, no error and no warning. -/
theorem c8_dependency_titles_nonempty :
    ∀ (line : List Char) (ds : List DependsEntry),
      parse_depends line = some ds →
      ds.all (fun e => !e.title.isEmpty) = true ∧
      parse_depends (' ' :: line) = parse_depends line := by
  intro line ds h
  exact ⟨depTokensRun_titles _ _ h, rfl⟩

/-- C8 witness: the amended property at the one-token value `LibA`. -/
theorem c8_dependency_titles_nonempty_w :
    List.all ([⟨String.data "LibA", none⟩] : List DependsEntry) (fun e => !e.title.isEmpty) = true ∧
    parse_depends (' ' :: String.data "LibA") = parse_depends (String.data "LibA") :=
  c8_dependency_titles_nonempty (String.data "LibA") [⟨String.data "LibA", none⟩] (by decide)

/-- C8 counterexample: a single tab character is a matching token, so the
parser materializes an entry whose title is the tab — nonempty, but
empty after trimming whitespace, refuting the trimmed-nonemptiness
claim. -/
theorem c8_whitespace_title :
    parse_depends ['\t'] = some [⟨['\t'], none⟩] ∧
    List.all ['\t'] isWS = true := by
  decide

/-- C9: the domain equality of two manifest records holds exactly when
the nine data fields agree pairwise, and records that differ only in
their errors or warnings lists compare equal. -/
theorem c9_domain_equality_nine_fields :
    ∀ a b : AddonManifest,
      (manifestEq a b = true ↔
        (a.title = b.title ∧ a.author = b.author ∧ a.api_version = b.api_version ∧
         a.api_version_2 = b.api_version_2 ∧ a.addon_version = b.addon_version ∧
         a.version = b.version ∧ a.depends_on = b.depends_on ∧
         a.optional_depends_on = b.optional_depends_on ∧ a.is_library = b.is_library)) ∧
      (∀ e w e2 w2 : List ManifestError,
        manifestEq { a with errors := e, warnings := w }
          { a with errors := e2, warnings := w2 } = true) := by
  intro a b
  constructor
  · simp [manifestEq, and_assoc]
  · intro e w e2 w2
    simp [manifestEq]

/-- C6: scalar directives overwrite — after two Title lines the record
holds the second value — while DependsOn directives append: after two
DependsOn lines the dependency list is the previous list extended by the
first value's entries and then the second value's entries, in order,
with no merging or deduplication. -/
theorem c6_scalar_overwrite_list_append :
    ∀ (st : AddonManifest) (v1 v2 va vb : List Char) (da db : List DependsEntry),
      hasSep v1 = false → hasSep v2 = false → hasSep va = false → hasSep vb = false →
      parse_depends va = some da → parse_depends vb = some db →
      Option.map AddonManifest.title
          (processLines [dirLine (String.data "Title") v1,
            dirLine (String.data "Title") v2] st false) = some v2 ∧
      Option.map AddonManifest.depends_on
          (processLines [dirLine (String.data "DependsOn") va,
            dirLine (String.data "DependsOn") vb] st false) =
        some (st.depends_on ++ da ++ db) := by
  intro st v1 v2 va vb da db h1 h2 ha hb hda hdb
  constructor
  · have t1 := parse_line_title v1 st h1
    have t2 := parse_line_title v2 { st with title := v1 } h2
    simp [processLines, t1, t2]
  · have e1 := parse_line_depends va st da ha hda
    have e2 := parse_line_depends vb { st with depends_on := st.depends_on ++ da } db hb hdb
    simp [processLines, e1, e2]

/-- C6 witness: two Title lines end with title `Second`, and DependsOn
lines `A` then `B` end with the dependency list `[A, B]`. -/
theorem c6_scalar_overwrite_list_append_w :
    Option.map AddonManifest.title
        (processLines [dirLine (String.data "Title") (String.data "First"),
          dirLine (String.data "Title") (String.data "Second")] {} false) =
      some (String.data "Second") ∧
    Option.map AddonManifest.depends_on
        (processLines [dirLine (String.data "DependsOn") (String.data "A"),
          dirLine (String.data "DependsOn") (String.data "B")] {} false) =
      some [⟨String.data "A", none⟩, ⟨String.data "B", none⟩] :=
  c6_scalar_overwrite_list_append {} (String.data "First") (String.data "Second")
    (String.data "A") (String.data "B") [⟨String.data "A", none⟩] [⟨String.data "B", none⟩]
    (by decide) (by decide) (by decide) (by decide) (by decide) (by decide)

/-- C10: processing one directive line whose name is a recognized scalar
name (Title, Author, Version, AddOnVersion, IsLibrary) mutates at most
that name's own field plus the errors list: the returned record equals
the input record with only that field and the errors replaced, so both
dependency lists, the warnings list and every other domain field are
unchanged. -/
theorem c10_scalar_directive_frame :
    ∀ (line : List Char) (st st' : AddonManifest) (fv : Bool) (d v : List Char),
      splitDirective line = some (d, v) →
      parse_line line st fv = some st' →
      ((d = String.data "Title" →
          st' = { st with title := st'.title, errors := st'.errors }) ∧
       (d = String.data "Author" →
          st' = { st with author := st'.author, errors := st'.errors }) ∧
       (d = String.data "Version" →
          st' = { st with version := st'.version, errors := st'.errors }) ∧
       (d = String.data "AddOnVersion" →
          st' = { st with addon_version := st'.addon_version, errors := st'.errors }) ∧
       (d = String.data "IsLibrary" →
          st' = { st with is_library := st'.is_library, errors := st'.errors })) := by
  intro line st st' fv d v hsplit hparse
  rw [parse_line_split _ _ _ _ _ hsplit] at hparse
  refine ⟨?_, ?_, ?_, ?_, ?_⟩ <;> intro hd <;> subst hd
  · rw [dispatchDirective, if_pos rfl] at hparse
    repeat' split at hparse
    all_goals first
      | exact Option.noConfusion hparse
      | (simp only [Option.some.injEq] at hparse; subst hparse; rfl)
  · rw [dispatchDirective, if_neg (by decide), if_pos rfl] at hparse
    repeat' split at hparse
    all_goals first
      | exact Option.noConfusion hparse
      | (simp only [Option.some.injEq] at hparse; subst hparse; rfl)
  · rw [dispatchDirective, if_neg (by decide), if_neg (by decide), if_neg (by decide),
      if_neg (by decide), if_pos rfl] at hparse
    repeat' split at hparse
    all_goals first
      | exact Option.noConfusion hparse
      | (simp only [Option.some.injEq] at hparse; subst hparse; rfl)
  · rw [dispatchDirective, if_neg (by decide), if_neg (by decide), if_neg (by decide),
      if_pos rfl] at hparse
    repeat' split at hparse
    all_goals first
      | exact Option.noConfusion hparse
      | (simp only [Option.some.injEq] at hparse; subst hparse; rfl)
  · rw [dispatchDirective, if_neg (by decide), if_neg (by decide), if_neg (by decide),
      if_neg (by decide), if_neg (by decide), if_neg (by decide), if_neg (by decide),
      if_pos rfl] at hparse
    repeat' split at hparse
    all_goals first
      | exact Option.noConfusion hparse
      | (simp only [Option.some.injEq] at hparse; subst hparse; rfl)

/-- C10 witness: the frame property at the line `## Author: Bob` on the
empty record, which sets only the author field. -/
theorem c10_scalar_directive_frame_w :
    (String.data "Author" = String.data "Title" →
      ({ author := String.data "Bob" } : AddonManifest) = {}) ∧
    (String.data "Author" = String.data "Author" →
      ({ author := String.data "Bob" } : AddonManifest) = { author := String.data "Bob" }) ∧
    (String.data "Author" = String.data "Version" →
      ({ author := String.data "Bob" } : AddonManifest) = {}) ∧
    (String.data "Author" = String.data "AddOnVersion" →
      ({ author := String.data "Bob" } : AddonManifest) = {}) ∧
    (String.data "Author" = String.data "IsLibrary" →
      ({ author := String.data "Bob" } : AddonManifest) = {}) :=
  c10_scalar_directive_frame (dirLine (String.data "Author") (String.data "Bob")) {}
    { author := String.data "Bob" } false (String.data "Author") (String.data "Bob")
    (by decide) (by decide)
